import Mathlib

/-!
Verification of the fastapi-fargate-pipeline service: a shallow embedding of
`app/config.py` (the `Settings` class built from environment variables) and
`app/main.py` (the FastAPI application: root and health endpoints, CORS
middleware configuration, documentation URLs, and the global exception
handler), together with theorems settling the specification claims.
-/

/-- The process environment, restricted to the six variables the program
reads (`os.getenv`): each field is `some value` when the variable is set
and `none` when it is absent. -/
structure Env where
  DEBUG : Option String
  ENVIRONMENT : Option String
  HOST : Option String
  PORT : Option String
  LOG_LEVEL : Option String
  HEALTH_CHECK_TIMEOUT : Option String
deriving DecidableEq

/-- `os.getenv(name, default)`: the variable's value if set, else the default. -/
def os_getenv (v : Option String) (default : String) : String :=
  v.getD default

/-- ASCII case folding of one character, as Python `str.lower` acts on the
ASCII range used by this program. -/
def asciiLower (c : Char) : Char :=
  if 'A' ≤ c ∧ c ≤ 'Z' then Char.ofNat (c.toNat + 32) else c

/-- Python `str.lower()` on the strings this program handles. -/
def pyLower (s : String) : String :=
  String.mk (s.data.map asciiLower)

/-- Digit tail of a Python integer literal: after a first digit, further
digits may be separated by single underscores; anything else (including a
trailing or doubled underscore) is a parse error. -/
def pyDigitsAux : List Char → Nat → Option Nat
  | [], acc => some acc
  | '_' :: c :: rest, acc =>
    if c.isDigit then pyDigitsAux rest (acc * 10 + (c.toNat - 48)) else none
  | c :: rest, acc =>
    if c.isDigit then pyDigitsAux rest (acc * 10 + (c.toNat - 48)) else none

/-- A nonempty digit sequence (with optional underscore separators); the
first character must be a digit. -/
def pyDigits : List Char → Option Nat
  | [] => none
  | c :: rest =>
    if c.isDigit then pyDigitsAux rest (c.toNat - 48) else none

/-- Python `int(s)`: strip surrounding whitespace, accept an optional sign
followed by a nonempty digit sequence; raise (here: `none`) otherwise. -/
def pyInt (s : String) : Option Int :=
  let cs := ((s.data.dropWhile Char.isWhitespace).reverse.dropWhile
    Char.isWhitespace).reverse
  match cs with
  | '+' :: rest => (pyDigits rest).map Int.ofNat
  | '-' :: rest => (pyDigits rest).map (fun n => -(n : Int))
  | rest => (pyDigits rest).map Int.ofNat

/-- The `Settings` record of `app/config.py`, with one field per class
attribute. -/
structure Settings where
  APP_NAME : String
  APP_VERSION : String
  DEBUG : Bool
  ENVIRONMENT : String
  HOST : String
  PORT : Int
  LOG_LEVEL : String
  CORS_ORIGINS : List String
  HEALTH_CHECK_TIMEOUT : Int
deriving DecidableEq

/-- Construction of `Settings` from the environment, following the class
body of `app/config.py` top to bottom.  The two `int(...)` calls are the
only fallible steps; a parse failure there aborts construction (`none`),
modelling the `ValueError` Python raises while executing the class body. -/
def mkSettings (env : Env) : Option Settings :=
  let dbg := pyLower (os_getenv env.DEBUG "false") == "true"
  let environment := os_getenv env.ENVIRONMENT "development"
  let host := os_getenv env.HOST "0.0.0.0"
  match pyInt (os_getenv env.PORT "8000") with
  | none => none
  | some port =>
    let logLevel := os_getenv env.LOG_LEVEL "INFO"
    let corsOrigins := if environment == "development" then ["*"] else []
    match pyInt (os_getenv env.HEALTH_CHECK_TIMEOUT "30") with
    | none => none
    | some hct =>
      some { APP_NAME := "FastAPI CI/CD Demo"
             APP_VERSION := "1.0.0"
             DEBUG := dbg
             ENVIRONMENT := environment
             HOST := host
             PORT := port
             LOG_LEVEL := logLevel
             CORS_ORIGINS := corsOrigins
             HEALTH_CHECK_TIMEOUT := hct }

/-- `Settings.is_production`: the environment name equals `"production"`. -/
def is_production (s : Settings) : Bool :=
  s.ENVIRONMENT == "production"

/-- `Settings.is_development`: the environment name equals `"development"`. -/
def is_development (s : Settings) : Bool :=
  s.ENVIRONMENT == "development"

/-- JSON values, as far as the two handlers produce them: objects are
ordered key/value lists, exactly the dict literals of the source. -/
inductive Json where
  | str : String → Json
  | bool : Bool → Json
  | obj : List (String × Json) → Json

/-- An HTTP response: status code and JSON body. -/
structure Response where
  status : Nat
  body : Json

/-- An HTTP request, as far as the handlers inspect it (they do not). -/
structure Request where
  path : String
  method : String

/-- The keys of a JSON object, in order (`[]` for non-objects). -/
def jsonKeys : Json → List String
  | Json.obj fields => fields.map Prod.fst
  | _ => []

/-- `docs_url="/docs" if not settings.is_production else None` from the
`FastAPI(...)` constructor call in `app/main.py`. -/
def docs_url (s : Settings) : Option String :=
  if !(is_production s) then some "/docs" else none

/-- `redoc_url="/redoc" if not settings.is_production else None` from the
`FastAPI(...)` constructor call in `app/main.py`. -/
def redoc_url (s : Settings) : Option String :=
  if !(is_production s) then some "/redoc" else none

/-- The argument record of the `app.add_middleware(CORSMiddleware, ...)`
call. -/
structure CORSConfig where
  allow_origins : List String
  allow_credentials : Bool
  allow_methods : List String
  allow_headers : List String

/-- The CORS middleware configuration installed at bootstrap in
`app/main.py`. -/
def corsMiddleware (s : Settings) : CORSConfig :=
  { allow_origins := s.CORS_ORIGINS
    allow_credentials := true
    allow_methods := ["GET", "POST", "PUT", "DELETE"]
    allow_headers := ["*"] }

/-- The `read_root` handler for `GET /`: a 200 response whose body is the
dict literal of `app/main.py`, reading only `ENVIRONMENT`, `APP_VERSION`
and `DEBUG` from the settings. -/
def read_root (s : Settings) : Response :=
  { status := 200
    body := Json.obj
      [("message", Json.str "Hello from FastAPI!"),
       ("environment", Json.str s.ENVIRONMENT),
       ("version", Json.str s.APP_VERSION),
       ("status", Json.str "running"),
       ("debug", Json.bool s.DEBUG)] }

/-- The body of the `try` block of `health_check`: it performs no check and
returns `{"status": "healthy"}`; no statement in it can raise, so it never
produces an error value. -/
def healthCheckTryBody : Except String Json :=
  Except.ok (Json.obj [("status", Json.str "healthy")])

/-- The `health_check` handler for `GET /health`: runs the `try` body; on
success returns it with status 200, on an exception raises
`HTTPException(503, "Service unavailable")`, which the framework renders as
a 503 response with body `{"detail": "Service unavailable"}`. -/
def health_check (r : Request) : Response :=
  match healthCheckTryBody with
  | Except.ok body => { status := 200, body := body }
  | Except.error _ =>
    { status := 503, body := Json.obj [("detail", Json.str "Service unavailable")] }

/-- `global_exception_handler` from `app/main.py`: any unhandled exception
(modelled by its message string) is turned into a fixed 500 response. -/
def global_exception_handler (r : Request) (exc : String) : Response :=
  { status := 500
    body := Json.obj [("detail", Json.str "Internal server error")] }

/-- The environment with none of the six variables set. -/
def emptyEnv : Env :=
  { DEBUG := none, ENVIRONMENT := none, HOST := none, PORT := none,
    LOG_LEVEL := none, HEALTH_CHECK_TIMEOUT := none }

/-- The `Settings` value the class body produces in an empty environment,
written out field by field. -/
def devSettings : Settings :=
  { APP_NAME := "FastAPI CI/CD Demo"
    APP_VERSION := "1.0.0"
    DEBUG := false
    ENVIRONMENT := "development"
    HOST := "0.0.0.0"
    PORT := 8000
    LOG_LEVEL := "INFO"
    CORS_ORIGINS := ["*"]
    HEALTH_CHECK_TIMEOUT := 30 }

/-- `devSettings` with the environment name set to `"production"`. -/
def prodSettings : Settings :=
  { devSettings with ENVIRONMENT := "production", CORS_ORIGINS := [] }

/-- `devSettings` with the environment name set to `"test"`. -/
def testSettings : Settings :=
  { devSettings with ENVIRONMENT := "test", CORS_ORIGINS := [] }

/-- The environment in which only `DEBUG` is set, to the string `"TRUE"`. -/
def envDebugTRUE : Env :=
  { emptyEnv with DEBUG := some "TRUE" }

/-- Helper: inverting a successful `mkSettings` run yields the record built
from the environment, with `PORT` and `HEALTH_CHECK_TIMEOUT` the parsed
integers. -/
theorem mkSettings_inv (env : Env) (s : Settings) (h : mkSettings env = some s) :
    ∃ port hct,
      pyInt (os_getenv env.PORT "8000") = some port ∧
      pyInt (os_getenv env.HEALTH_CHECK_TIMEOUT "30") = some hct ∧
      s = { APP_NAME := "FastAPI CI/CD Demo"
            APP_VERSION := "1.0.0"
            DEBUG := pyLower (os_getenv env.DEBUG "false") == "true"
            ENVIRONMENT := os_getenv env.ENVIRONMENT "development"
            HOST := os_getenv env.HOST "0.0.0.0"
            PORT := port
            LOG_LEVEL := os_getenv env.LOG_LEVEL "INFO"
            CORS_ORIGINS :=
              if os_getenv env.ENVIRONMENT "development" == "development"
              then ["*"] else []
            HEALTH_CHECK_TIMEOUT := hct } := by
  unfold mkSettings at h
  cases h1 : pyInt (os_getenv env.PORT "8000") with
  | none => simp [h1] at h
  | some port =>
    cases h2 : pyInt (os_getenv env.HEALTH_CHECK_TIMEOUT "30") with
    | none => simp [h1, h2] at h
    | some hct =>
      simp only [h1, h2] at h
      exact ⟨port, hct, rfl, rfl, (Option.some.injEq _ _ ▸ h).symm⟩

/-- Claim C1: if the `PORT` environment variable is set to a string that
does not parse as an integer, `Settings` construction fails (no value is
produced), propagating the parse error instead of silently falling back to
the default 8000. -/
theorem C1_bad_port_fails_construction (env : Env) (p : String)
    (hset : env.PORT = some p) (hbad : pyInt p = none) :
    mkSettings env = none := by
  unfold mkSettings
  simp [os_getenv, hset, hbad]

/-- Claim C1 witness: with `PORT=notanumber` (all other variables absent),
the string does not parse and construction fails. -/
theorem C1_witness :
    ({ emptyEnv with PORT := some "notanumber" } : Env).PORT = some "notanumber" ∧
    pyInt "notanumber" = none ∧
    mkSettings { emptyEnv with PORT := some "notanumber" } = none :=
  ⟨rfl, by decide,
    C1_bad_port_fails_construction _ "notanumber" rfl (by decide)⟩

/-- Claim C2: for every `Settings` value, `GET /` returns status 200 and a
JSON object with exactly the keys `message`, `environment`, `version`,
`status`, `debug`, where `message` is `"Hello from FastAPI!"`, `status` is
`"running"`, `environment` and `version` are the corresponding settings
fields, and `debug` is the debug flag.  The handler is a pure function of
the settings, so determinism holds by construction. -/
theorem C2_read_root_response (s : Settings) :
    read_root s =
      { status := 200
        body := Json.obj
          [("message", Json.str "Hello from FastAPI!"),
           ("environment", Json.str s.ENVIRONMENT),
           ("version", Json.str s.APP_VERSION),
           ("status", Json.str "running"),
           ("debug", Json.bool s.DEBUG)] } ∧
    jsonKeys (read_root s).body =
      ["message", "environment", "version", "status", "debug"] :=
  ⟨rfl, rfl⟩

/-- Claim C3: with no dependency check wired in, `GET /health` returns
status 200 with body exactly `{"status": "healthy"}`, and any two calls
return the same response (idempotence). -/
theorem C3_health_check_response (r : Request) :
    health_check r =
      { status := 200, body := Json.obj [("status", Json.str "healthy")] } ∧
    ∀ r2 : Request, health_check r = health_check r2 :=
  ⟨rfl, fun _ => rfl⟩

/-- Claim C4: the CORS policy installed at bootstrap allows all origins
(`["*"]`) exactly when the environment name is `"development"` and no
origins otherwise, always allows credentials, allows exactly the methods
GET, POST, PUT, DELETE, and allows all headers. -/
theorem C4_cors_policy (env : Env) (s : Settings) (h : mkSettings env = some s) :
    ((corsMiddleware s).allow_origins = ["*"] ↔ s.ENVIRONMENT = "development") ∧
    (s.ENVIRONMENT ≠ "development" → (corsMiddleware s).allow_origins = []) ∧
    (corsMiddleware s).allow_credentials = true ∧
    (corsMiddleware s).allow_methods = ["GET", "POST", "PUT", "DELETE"] ∧
    (corsMiddleware s).allow_headers = ["*"] := by
  obtain ⟨port, hct, -, -, hs⟩ := mkSettings_inv env s h
  subst hs
  by_cases hd : os_getenv env.ENVIRONMENT "development" = "development" <;>
    simp [corsMiddleware, hd]

/-- Claim C4 witness: in the empty environment the settings are the
development defaults, and the policy allows all origins. -/
theorem C4_witness :
    mkSettings emptyEnv = some devSettings ∧
    (((corsMiddleware devSettings).allow_origins = ["*"] ↔
        devSettings.ENVIRONMENT = "development") ∧
     (devSettings.ENVIRONMENT ≠ "development" →
        (corsMiddleware devSettings).allow_origins = []) ∧
     (corsMiddleware devSettings).allow_credentials = true ∧
     (corsMiddleware devSettings).allow_methods = ["GET", "POST", "PUT", "DELETE"] ∧
     (corsMiddleware devSettings).allow_headers = ["*"]) :=
  ⟨by decide, C4_cors_policy emptyEnv devSettings (by decide)⟩

/-- Claim C5: the interactive documentation URLs (`/docs`, `/redoc`) are
both disabled exactly when `is_production` holds, i.e. exactly when the
environment name is `"production"`; for every other environment name they
are enabled at their usual paths. -/
theorem C5_docs_disabled_iff_production (s : Settings) :
    ((docs_url s = none ∧ redoc_url s = none) ↔ is_production s = true) ∧
    (is_production s = true ↔ s.ENVIRONMENT = "production") ∧
    (s.ENVIRONMENT ≠ "production" →
      docs_url s = some "/docs" ∧ redoc_url s = some "/redoc") := by
  by_cases h : s.ENVIRONMENT = "production" <;>
    simp [docs_url, redoc_url, is_production, h]

/-- Claim C5 witness: documentation is off in production and on in
development. -/
theorem C5_witness :
    (docs_url prodSettings = none ∧ redoc_url prodSettings = none) ∧
    (devSettings.ENVIRONMENT ≠ "production" ∧
      docs_url devSettings = some "/docs" ∧ redoc_url devSettings = some "/redoc") :=
  ⟨(C5_docs_disabled_iff_production prodSettings).1.mpr rfl,
   ⟨by decide, (C5_docs_disabled_iff_production devSettings).2.2 (by decide)⟩⟩

/-- Claim C6: the global exception handler maps every request and every
unhandled exception to status 500 with body exactly
`{"detail": "Internal server error"}`; the response does not depend on the
exception, so no exception detail can appear in it. -/
theorem C6_exception_handler_generic (req : Request) (exc : String) :
    global_exception_handler req exc =
      { status := 500
        body := Json.obj [("detail", Json.str "Internal server error")] } ∧
    ∀ exc2 : String, global_exception_handler req exc = global_exception_handler req exc2 :=
  ⟨rfl, fun _ => rfl⟩

/-- Claim C7 counterexample: with `DEBUG=TRUE` the debug flag is true even
though `"TRUE"` is not the string `"true"` — the code lowercases the value
before comparing, so the match is case-insensitive, contradicting the claim
as stated. -/
theorem C7_counterexample :
    envDebugTRUE.DEBUG = some "TRUE" ∧
    "TRUE" ≠ "true" ∧
    (mkSettings envDebugTRUE).map Settings.DEBUG = some true :=
  ⟨rfl, by decide, by decide⟩

/-- Claim C7 (amended): the debug flag is true exactly when the lowercased
value of the `DEBUG` environment variable equals `"true"` (a
case-insensitive match), and false when the variable is absent. -/
theorem C7_debug_flag (env : Env) (s : Settings) (h : mkSettings env = some s) :
    (s.DEBUG = true ↔ pyLower (os_getenv env.DEBUG "false") = "true") ∧
    (env.DEBUG = none → s.DEBUG = false) := by
  obtain ⟨port, hct, -, -, hs⟩ := mkSettings_inv env s h
  subst hs
  constructor
  · simp
  · intro hnone
    simp [os_getenv, hnone]
    decide

/-- Claim C7 witness: in the empty environment the flag is false. -/
theorem C7_witness :
    mkSettings emptyEnv = some devSettings ∧
    ((devSettings.DEBUG = true ↔ pyLower (os_getenv emptyEnv.DEBUG "false") = "true") ∧
     (emptyEnv.DEBUG = none → devSettings.DEBUG = false)) :=
  ⟨by decide, C7_debug_flag emptyEnv devSettings (by decide)⟩

/-- Claim C8: each absent environment variable falls back to its documented
literal default: `ENVIRONMENT = "development"`, `HOST = "0.0.0.0"`,
`PORT = 8000`, `LOG_LEVEL = "INFO"`, `HEALTH_CHECK_TIMEOUT = 30`. -/
theorem C8_defaults (env : Env) (s : Settings) (h : mkSettings env = some s) :
    (env.ENVIRONMENT = none → s.ENVIRONMENT = "development") ∧
    (env.HOST = none → s.HOST = "0.0.0.0") ∧
    (env.PORT = none → s.PORT = 8000) ∧
    (env.LOG_LEVEL = none → s.LOG_LEVEL = "INFO") ∧
    (env.HEALTH_CHECK_TIMEOUT = none → s.HEALTH_CHECK_TIMEOUT = 30) := by
  obtain ⟨port, hct, hp, hh, hs⟩ := mkSettings_inv env s h
  subst hs
  refine ⟨fun hn => by simp [os_getenv, hn],
          fun hn => by simp [os_getenv, hn],
          fun hn => ?_,
          fun hn => by simp [os_getenv, hn],
          fun hn => ?_⟩
  · rw [hn] at hp
    have h8 : pyInt (os_getenv none "8000") = some 8000 := by decide
    rw [h8] at hp
    simpa using hp.symm
  · rw [hn] at hh
    have h30 : pyInt (os_getenv none "30") = some 30 := by decide
    rw [h30] at hh
    simpa using hh.symm

/-- Claim C8 witness: the empty environment yields exactly the documented
defaults. -/
theorem C8_witness :
    mkSettings emptyEnv = some devSettings ∧
    ((emptyEnv.ENVIRONMENT = none → devSettings.ENVIRONMENT = "development") ∧
     (emptyEnv.HOST = none → devSettings.HOST = "0.0.0.0") ∧
     (emptyEnv.PORT = none → devSettings.PORT = 8000) ∧
     (emptyEnv.LOG_LEVEL = none → devSettings.LOG_LEVEL = "INFO") ∧
     (emptyEnv.HEALTH_CHECK_TIMEOUT = none → devSettings.HEALTH_CHECK_TIMEOUT = 30)) :=
  ⟨by decide, C8_defaults emptyEnv devSettings (by decide)⟩

/-- Claim C9: the 503 branch of the health-check handler is unreachable in
the reference implementation: the `try` body always returns the success
value (it contains no raising statement), so every response has status 200
and never 503. -/
theorem C9_health_503_unreachable :
    (∃ b, healthCheckTryBody = Except.ok b) ∧
    (∀ r : Request, (health_check r).status = 200) ∧
    (∀ r : Request, (health_check r).status ≠ 503) :=
  ⟨⟨Json.obj [("status", Json.str "healthy")], rfl⟩,
   fun _ => rfl,
   fun _ => by simp [health_check, healthCheckTryBody]⟩

/-- Claim C10: `is_production` and `is_development` are never both true
(the strings `"production"` and `"development"` differ), and both are false
for any other environment name such as `"test"`. -/
theorem C10_flags_exclusive (s : Settings) :
    ¬(is_production s = true ∧ is_development s = true) ∧
    (s.ENVIRONMENT ≠ "production" → s.ENVIRONMENT ≠ "development" →
      is_production s = false ∧ is_development s = false) := by
  constructor
  · rintro ⟨hp, hd⟩
    simp [is_production] at hp
    simp [is_development] at hd
    rw [hp] at hd
    exact absurd hd (by decide)
  · intro h1 h2
    simp [is_production, is_development, h1, h2]

/-- Claim C10 witness: at environment name `"test"` both flags are false,
and they are not both true. -/
theorem C10_witness :
    ¬(is_production testSettings = true ∧ is_development testSettings = true) ∧
    (is_production testSettings = false ∧ is_development testSettings = false) :=
  ⟨(C10_flags_exclusive testSettings).1,
   (C10_flags_exclusive testSettings).2 (by decide) (by decide)⟩
